import Mathlib

/-!
Shallow embedding of the gofi terminal file browser (main.go).

The embedding models:
- Go buffered channels as a FIFO buffer with a capacity and a closed flag
  (`Chan`); a send on a closed channel is a runtime panic, a send on a full
  open channel blocks (`SendResult`).
- the `Application` value built by `newApplication` (its two channels, its
  `items` slice, the selected index and the footer text), the ingestion
  loop of `Application.start` as a nondeterministic step function
  (`loopStep` — Go's `select` chooses uniformly at random among ready
  cases, which we model as an external choice that may pick any ready
  case; `default` is eligible only when no case is ready),
- `Application.addItem`, which both updates the state and produces a trace
  of UI operations tagged with the execution context they run in:
  `direct` (the calling goroutine, i.e. the ingestion loop) or `queued`
  (inside `QueueUpdateDraw`, the toolkit's serialized update mechanism),
- the input-capture handler installed in `newApplication`,
- `scanDirectory`, with the filesystem collaborators (`Getwd`, `ReadDir`,
  `Stat`, the text-file heuristic) passed in explicitly, and the emitted
  items given as the list of values sent on the channel,
- a whole-system scheduler (`sysRun`) interleaving the scanner, the
  ingestion loop and quit-key presses, used for the ordering invariant.
-/

/-- Keycode constants from the source: J = 106, K = 107, Q = 113. -/
def J : Nat := 106

/-- Keycode for the k key. -/
def K : Nat := 107

/-- Keycode for the q key. -/
def Q : Nat := 113

/-- The `Item` struct: title, description and footer strings. -/
structure Item where
  title : String
  description : String
  footer : String
  deriving Repr, DecidableEq

/-- A Go buffered channel: a FIFO buffer (head = oldest), a capacity, and
a closed flag. -/
structure Chan (α : Type) where
  buf : List α
  cap : Nat
  closed : Bool
  deriving Repr, DecidableEq

/-- Outcome of a Go channel send: the value is buffered (`ok`), the sender
blocks because the buffer of an open channel is full (`blocked`), or the
runtime panics because the channel is closed (`panicked`). -/
inductive SendResult (α : Type) where
  | ok (ch : Chan α)
  | blocked
  | panicked
  deriving Repr, DecidableEq

/-- Go send semantics on a buffered channel. -/
def Chan.send {α : Type} (ch : Chan α) (a : α) : SendResult α :=
  if ch.closed then SendResult.panicked
  else if ch.buf.length < ch.cap then SendResult.ok { ch with buf := ch.buf ++ [a] }
  else SendResult.blocked

/-- Which execution context a UI mutation runs in: `direct` means on the
calling goroutine (the ingestion loop), `queued` means inside a callback
handed to `QueueUpdateDraw`, the toolkit's serialized update mechanism. -/
inductive ExecContext where
  | direct
  | queued
  deriving Repr, DecidableEq

/-- The UI mutations performed by `Application.addItem`. -/
inductive UIOp where
  | appendItems (item : Item)
  | listAddItem (title : String)
  | setFooterText (text : String)
  deriving Repr, DecidableEq

/-- Whether a UI operation is the append to `app.items`. -/
def UIOp.isAppend : UIOp → Bool
  | .appendItems _ => true
  | _ => false

/-- Phase of the ingestion-loop goroutine launched by `Application.start`. -/
inductive LoopPhase where
  | running
  | stopped
  deriving Repr, DecidableEq

/-- The data-relevant fields of the `Application` struct: the two channels
(`itemAdded` of capacity 100, `stopReceiveNewItem` of capacity 10), the
`items` slice, the selected index, the footer view's current text, plus
the ingestion loop's phase and whether `waitgroup.Done()` has run. -/
structure Application where
  itemAdded : Chan Item
  stopReceiveNewItem : Chan Bool
  items : List Item
  selectedItemIndex : Nat
  footerText : String
  phase : LoopPhase
  loopDone : Bool
  deriving Repr, DecidableEq

/-- `newApplication`: empty channels with capacities 100 and 10, no items,
ingestion loop about to run. -/
def newApplication : Application :=
  { itemAdded := { buf := [], cap := 100, closed := false }
    stopReceiveNewItem := { buf := [], cap := 10, closed := false }
    items := []
    selectedItemIndex := 0
    footerText := ""
    phase := LoopPhase.running
    loopDone := false }

/-- The footer string `fmt.Sprintf("%d/%d: %s", index, total, footer)`. -/
def footerFormat (index total : Nat) (footer : String) : String :=
  toString index ++ "/" ++ toString total ++ ": " ++ footer

/-- `Application.addItem`: appends to `app.items` directly on the calling
goroutine, then enqueues via `QueueUpdateDraw` the list-widget addition and
the footer update (which reads the length after the append and the *new*
item's footer). Returns the updated state together with the trace of UI
operations tagged by execution context, in program order. -/
def Application.addItem (app : Application) (item : Item) :
    Application × List (ExecContext × UIOp) :=
  let app1 := { app with items := app.items ++ [item] }
  let footText := footerFormat (app1.selectedItemIndex + 1) app1.items.length item.footer
  ({ app1 with footerText := footText },
   [(ExecContext.direct, UIOp.appendItems item),
    (ExecContext.queued, UIOp.listAddItem item.title),
    (ExecContext.queued, UIOp.setFooterText footText)])

/-- The three cases of the ingestion loop's `select` statement. -/
inductive SelectCase where
  | shutdown
  | item
  | dflt
  deriving Repr, DecidableEq

/-- The state change of the shutdown branch when the received value is
`true`: `close(app.itemAdded)`, `app.waitgroup.Done()`, `break`. -/
def shutdownExit (app : Application) (rest : List Bool) : Application :=
  { app with
    stopReceiveNewItem := { app.stopReceiveNewItem with buf := rest }
    itemAdded := { app.itemAdded with closed := true }
    loopDone := true
    phase := LoopPhase.stopped }

/-- One iteration of the ingestion loop's `select`, given which case the
runtime chose. Go chooses uniformly at random among the ready cases, so any
ready case may be picked; `none` means the chosen case was not ready (or
the loop has already exited) and no step happens. The `default` case is
ready only when neither channel is. While the loop runs, `itemAdded` is
open (the loop itself is the only closer and it exits immediately after),
so receive readiness is buffer non-emptiness. -/
def loopStep (app : Application) (c : SelectCase) : Option Application :=
  match app.phase with
  | LoopPhase.stopped => none
  | LoopPhase.running =>
    match c with
    | SelectCase.shutdown =>
      match app.stopReceiveNewItem.buf with
      | [] => none
      | stop :: rest =>
        if stop then some (shutdownExit app rest)
        else some { app with stopReceiveNewItem := { app.stopReceiveNewItem with buf := rest } }
    | SelectCase.item =>
      match app.itemAdded.buf with
      | [] => none
      | newItem :: rest =>
        some (Application.addItem { app with itemAdded := { app.itemAdded with buf := rest } } newItem).1
    | SelectCase.dflt =>
      if app.stopReceiveNewItem.buf = [] ∧ app.itemAdded.buf = [] then some app else none

/-- tcell key codes the handler distinguishes: Ctrl+C, the synthesized
Down/Up keys, a plain rune key, or anything else. -/
inductive KeyCode where
  | ctrlC
  | down
  | up
  | runeKey
  | otherKey
  deriving Repr, DecidableEq

/-- A tcell `EventKey`: its key code and its rune (0 when none). -/
structure EventKey where
  key : KeyCode
  rune : Nat
  deriving Repr, DecidableEq

/-- `app.stopReceiveNewItem <- true`: a buffered send. The capacity is 10
and never reached in the modelled scenarios, so the handler does not
block; a full buffer is modelled as leaving the state unchanged. -/
def sendStopSignal (app : Application) : Application :=
  match Chan.send app.stopReceiveNewItem true with
  | SendResult.ok ch => { app with stopReceiveNewItem := ch }
  | _ => app

/-- The input-capture handler installed in `newApplication`: on Ctrl+C it
sends the stop signal; then, only when the list view has focus, j/k are
rewritten to Down/Up and q sends the stop signal and synthesizes a Ctrl+C
event; every other event is returned unchanged. -/
def inputCapture (app : Application) (focusOnListView : Bool) (event : EventKey) :
    Application × EventKey :=
  let app1 := if event.key = KeyCode.ctrlC then sendStopSignal app else app
  if focusOnListView then
    if event.rune = J then (app1, { key := KeyCode.down, rune := 0 })
    else if event.rune = K then (app1, { key := KeyCode.up, rune := 0 })
    else if event.rune = Q then (sendStopSignal app1, { key := KeyCode.ctrlC, rune := 0 })
    else (app1, event)
  else (app1, event)

/-- The stat data `scanDirectory` reads from `os.Stat`: `Size()` (an
int64), the formatted `Mode()` string, and `IsDir()`. -/
structure FileStat where
  size : Int
  mode : String
  isDir : Bool
  deriving Repr, DecidableEq

/-- One entry of a directory listing, as returned by `ioutil.ReadDir`. -/
structure DirEntry where
  name : String
  deriving Repr, DecidableEq

/-- The filesystem collaborators of the per-entry loop: `os.Stat` on a full
path (`none` models a stat error) and the `util.IsTextFile` heuristic. -/
structure FS where
  stat : String → Option FileStat
  isTextFile : String → Bool

/-- The body of `scanDirectory`'s per-entry loop for a single entry: stat
the full path `path/name`; on error skip the entry (log and continue),
otherwise build the fully populated `Item` that is sent on the channel. -/
def emitItem (fs : FS) (path : String) (file : DirEntry) : Option Item :=
  let fullPath := path ++ "/" ++ file.name
  match fs.stat fullPath with
  | none => none
  | some fileStat =>
    let isDir := if fileStat.isDir then "Yes" else "No"
    let fileFormat := if fs.isTextFile fullPath then "Text" else "Bin"
    some
      { title := file.name
        description :=
          "File size: " ++ toString fileStat.size ++
          "\nParent dir: " ++ path ++
          "\nFile mode: " ++ fileStat.mode ++
          "\nDirectory: " ++ isDir ++
          "\nFile format: " ++ fileFormat
        footer := fullPath }

/-- The items `scanDirectory`'s loop sends on `itemAddedChannel`, in
listing order, skipping entries whose stat fails. -/
def scanEntries (fs : FS) (path : String) (files : List DirEntry) : List Item :=
  files.filterMap (emitItem fs path)

/-- Path resolution at the top of `scanDirectory`: with no CLI argument
(`len(os.Args) == 1`) use `os.Getwd()`, returning early (`none`) when it
fails; otherwise use `os.Args[1]`. -/
def resolvePath (args : List String) (getwd : Except String String) : Option String :=
  if args.length = 1 then
    match getwd with
    | Except.error _ => none
    | Except.ok currentDir => some currentDir
  else args[1]?

/-- `scanDirectory`: resolve the path, list the directory (returning early
with nothing emitted when either fails), then emit one item per
stat-able entry. The result is the list of items sent on the channel. -/
def scanDirectory (args : List String) (getwd : Except String String)
    (readDir : String → Except String (List DirEntry)) (fs : FS) : List Item :=
  match resolvePath args getwd with
  | none => []
  | some path =>
    match readDir path with
    | Except.error _ => []
    | Except.ok files => scanEntries fs path files

/-- Whole-system state: the items the scanner has not yet sent, and the
application (channels, items, loop phase). -/
structure SysState where
  toSend : List Item
  app : Application
  deriving Repr, DecidableEq

/-- A scheduler choice: the scanner attempts its next send, the ingestion
loop runs one `select` iteration with a given case, or the user presses the
quit key (a send on `stopReceiveNewItem`). -/
inductive SysChoice where
  | scan
  | loopC (c : SelectCase)
  | press
  deriving Repr, DecidableEq

/-- One interleaving step. A scanner send that blocks (full buffer) or
panics (closed channel) makes no state change here; ordering claims are
unaffected because nothing is appended in either case. -/
def sysStep (st : SysState) : SysChoice → Option SysState
  | SysChoice.scan =>
    match st.toSend with
    | [] => none
    | it :: rest =>
      match Chan.send st.app.itemAdded it with
      | SendResult.ok ch => some { toSend := rest, app := { st.app with itemAdded := ch } }
      | _ => none
  | SysChoice.loopC c => (loopStep st.app c).map fun a => { st with app := a }
  | SysChoice.press =>
    some { st with app := sendStopSignal st.app }

/-- Run the system under an arbitrary finite schedule; a choice that cannot
step leaves the state unchanged. -/
def sysRun (st : SysState) : List SysChoice → SysState
  | [] => st
  | c :: cs => sysRun ((sysStep st c).getD st) cs

/-- Initial whole-system state: the scanner holds the list of items it will
emit, the application is freshly constructed. -/
def initSys (l : List Item) : SysState :=
  { toSend := l, app := newApplication }

/-- Do the two character lists agree on the leading segment `pat`? -/
def leadEq : List Char → List Char → Bool
  | [], _ => true
  | _ :: _, [] => false
  | a :: as, b :: bs => a == b && leadEq as bs

/-- Does `pat` occur as a contiguous segment of `s`? -/
def hasSeg (pat : List Char) : List Char → Bool
  | [] => leadEq pat []
  | c :: rest => leadEq pat (c :: rest) || hasSeg pat rest

/-- Does the string `pat` occur as a contiguous substring of `s`? -/
def strHasSeg (s pat : String) : Bool :=
  hasSeg pat.data s.data

/-- A sample item. -/
def itemA : Item := { title := "a", description := "da", footer := "fa" }

/-- A second sample item with a different footer. -/
def itemB : Item := { title := "b", description := "db", footer := "fb" }

/-- A state in which a shutdown token and an item are pending at once. -/
def bothPendingApp : Application :=
  { newApplication with
    itemAdded := { buf := [itemA], cap := 100, closed := false }
    stopReceiveNewItem := { buf := [true], cap := 10, closed := false } }

/-- A state in which only a shutdown token is pending; the scanner still
has `itemB` to send. -/
def quitPendingApp : Application :=
  { newApplication with
    stopReceiveNewItem := { buf := [true], cap := 10, closed := false } }

/-- A state with one item already shown and the first entry selected. -/
def oneItemApp : Application :=
  { newApplication with items := [itemA], selectedItemIndex := 0 }

/-- A state whose item buffer holds `itemB`, with the loop running. -/
def itemPendingApp : Application :=
  { newApplication with itemAdded := { buf := [itemB], cap := 100, closed := false } }

/-- A schedule that sends and consumes two items. -/
def drainSched : List SysChoice :=
  [SysChoice.scan, SysChoice.scan,
   SysChoice.loopC SelectCase.item, SysChoice.loopC SelectCase.item]

/-- Stat data of a 10-byte regular text file. -/
def statA : FileStat := { size := 10, mode := "-rw-r--r--", isDir := false }

/-- Stat data of a subdirectory. -/
def statB : FileStat := { size := 96, mode := "drwxr-xr-x", isDir := true }

/-- Directory entry `a.txt`. -/
def entA : DirEntry := { name := "a.txt" }

/-- Directory entry `b`. -/
def entB : DirEntry := { name := "b" }

/-- Filesystem for the end-to-end scenario: directory `d` holding the
10-byte text file `a.txt` and the subdirectory `b`. -/
def fsAB : FS :=
  { stat := fun p =>
      if p = "d/a.txt" then some statA
      else if p = "d/b" then some statB
      else none
    isTextFile := fun p => p == "d/a.txt" }

/-- Filesystem in which entry `x2` of directory `d` fails to stat and the
entries `x1` and `x3` stat fine. -/
def fsSkip : FS :=
  { stat := fun p =>
      if p = "d/x2" then none
      else some { size := 1, mode := "-rw-r--r--", isDir := false }
    isTextFile := fun _ => false }

/-- Directory entry `x1`. -/
def entX1 : DirEntry := { name := "x1" }

/-- Directory entry `x2`, the one whose stat fails under `fsSkip`. -/
def entX2 : DirEntry := { name := "x2" }

/-- Directory entry `x3`. -/
def entX3 : DirEntry := { name := "x3" }

/-- A directory listing that always fails. -/
def readDirFail : String → Except String (List DirEntry) := fun _ => Except.error "boom"

/-- A directory listing that always succeeds with one entry. -/
def readDirOk : String → Except String (List DirEntry) := fun _ => Except.ok [entA]

/-- The item the scanner builds for `a.txt` in the end-to-end scenario. -/
def itemAB0 : Item :=
  { title := "a.txt"
    description :=
      "File size: 10\nParent dir: d\nFile mode: -rw-r--r--\nDirectory: No\nFile format: Text"
    footer := "d/a.txt" }

/-- The item the scanner builds for the subdirectory `b` in the end-to-end
scenario. -/
def itemAB1 : Item :=
  { title := "b"
    description :=
      "File size: 96\nParent dir: d\nFile mode: drwxr-xr-x\nDirectory: Yes\nFile format: Bin"
    footer := "d/b" }

/-- A press of the q key: a plain rune event carrying rune 113. -/
def qEvent : EventKey := { key := KeyCode.runeKey, rune := 113 }

/-- A Ctrl+C key event (tcell reports rune 3 for it). -/
def ctrlCEvent : EventKey := { key := KeyCode.ctrlC, rune := 3 }

/-- The buffer a successful Go send produces: the value is appended at the
back of the FIFO buffer. -/
theorem Chan.send_ok_buf {α : Type} {ch ch' : Chan α} {a : α}
    (h : Chan.send ch a = SendResult.ok ch') : ch'.buf = ch.buf ++ [a] := by
  unfold Chan.send at h
  split at h
  · exact absurd h (by simp)
  · split at h
    · cases h
      rfl
    · exact absurd h (by simp)

/-- One interleaving step preserves the pipeline contents
items ++ channel buffer ++ unsent, in order. -/
theorem sysStep_pipe_inv (st : SysState) (c : SysChoice) :
    ((sysStep st c).getD st).app.items ++ ((sysStep st c).getD st).app.itemAdded.buf ++
        ((sysStep st c).getD st).toSend =
      st.app.items ++ st.app.itemAdded.buf ++ st.toSend := by
  cases c with
  | scan =>
    cases h : st.toSend with
    | nil => simp [sysStep, h]
    | cons it rest =>
      cases hs : Chan.send st.app.itemAdded it with
      | ok ch =>
        simp [sysStep, h, hs, Chan.send_ok_buf hs]
      | blocked => simp [sysStep, h, hs]
      | panicked => simp [sysStep, h, hs]
  | loopC c' =>
    cases hp : st.app.phase with
    | stopped => cases c' <;> simp [sysStep, loopStep, hp]
    | running =>
      cases c' with
      | shutdown =>
        cases hb : st.app.stopReceiveNewItem.buf with
        | nil => simp [sysStep, loopStep, hp, hb]
        | cons stop rest =>
          cases stop
          · simp [sysStep, loopStep, hp, hb]
          · simp [sysStep, loopStep, hp, hb, shutdownExit]
      | item =>
        cases hb : st.app.itemAdded.buf with
        | nil => simp [sysStep, loopStep, hp, hb]
        | cons it rest =>
          simp [sysStep, loopStep, hp, hb, Application.addItem]
      | dflt =>
        simp only [sysStep, loopStep, hp]
        split <;> simp
  | press =>
    cases hs : Chan.send st.app.stopReceiveNewItem true with
    | ok ch => simp [sysStep, sendStopSignal, hs]
    | blocked => simp [sysStep, sendStopSignal, hs]
    | panicked => simp [sysStep, sendStopSignal, hs]

/-- Any finite schedule preserves the pipeline contents, in order. -/
theorem sysRun_pipe_inv (sched : List SysChoice) (st : SysState) :
    (sysRun st sched).app.items ++ (sysRun st sched).app.itemAdded.buf ++
        (sysRun st sched).toSend =
      st.app.items ++ st.app.itemAdded.buf ++ st.toSend := by
  induction sched generalizing st with
  | nil => rfl
  | cons c cs ih =>
    calc (sysRun st (c :: cs)).app.items ++ (sysRun st (c :: cs)).app.itemAdded.buf ++
            (sysRun st (c :: cs)).toSend
        = ((sysStep st c).getD st).app.items ++ ((sysStep st c).getD st).app.itemAdded.buf ++
            ((sysStep st c).getD st).toSend := ih ((sysStep st c).getD st)
      _ = st.app.items ++ st.app.itemAdded.buf ++ st.toSend := sysStep_pipe_inv st c

/-- C5: for every list of items the scanner emits and every interleaving of
scanner sends, ingestion-loop iterations and quit presses, the items
appended to `items` are a prefix of the emitted sequence (exactly the order
the scanner sent them on the FIFO channel), and once the scanner has sent
everything and the channel has drained, `items` equals the emitted sequence
— for all N ≥ 0. -/
theorem pipeline_order_preserved (l : List Item) (sched : List SysChoice) :
    (∃ rest, (sysRun (initSys l) sched).app.items ++ rest = l) ∧
    ((sysRun (initSys l) sched).toSend = [] →
      (sysRun (initSys l) sched).app.itemAdded.buf = [] →
      (sysRun (initSys l) sched).app.items = l) := by
  have h := sysRun_pipe_inv sched (initSys l)
  rw [show (initSys l).app.items ++ (initSys l).app.itemAdded.buf ++ (initSys l).toSend = l
        from rfl, List.append_assoc] at h
  constructor
  · exact ⟨_, h⟩
  · intro h1 h2
    rw [h1, h2] at h
    simpa using h

/-- C5 witness: two items sent and consumed under a concrete schedule end
up in `items` in the order sent. -/
theorem pipeline_order_witness :
    (sysRun (initSys [itemA, itemB]) drainSched).app.items = [itemA, itemB] :=
  (pipeline_order_preserved [itemA, itemB] drainSched).2 (by decide) (by decide)

/-- C1 counterexample: it is not the case that every append to
`app.items` in the trace of `Application.addItem` runs in the toolkit's
serialized update mechanism — at a concrete input the append operation is
tagged `direct`, i.e. it runs on the calling (ingestion-loop) goroutine,
outside `QueueUpdateDraw`. -/
theorem addItem_append_not_queued_cex :
    ¬ ∀ (app : Application) (item : Item),
        ∀ p ∈ (Application.addItem app item).2,
          p.2.isAppend = true → p.1 = ExecContext.queued := by
  intro h
  exact absurd
    (h newApplication itemA (ExecContext.direct, UIOp.appendItems itemA) (by decide) (by decide))
    (by decide)

/-- C1 amended: `Application.addItem` appends to `items` directly on the
calling goroutine (the ingestion loop's thread of execution), before the
`QueueUpdateDraw` call; only the list-widget addition and the footer update
are enqueued onto the UI's serialized update mechanism. -/
theorem addItem_trace_direct_append (app : Application) (item : Item) :
    (Application.addItem app item).1.items = app.items ++ [item] ∧
    (Application.addItem app item).2 =
      [(ExecContext.direct, UIOp.appendItems item),
       (ExecContext.queued, UIOp.listAddItem item.title),
       (ExecContext.queued, UIOp.setFooterText
         (footerFormat (app.selectedItemIndex + 1) (app.items.length + 1) item.footer))] := by
  constructor <;> simp [Application.addItem]

/-- C2 counterexample: it is not the case that an available item is handed
to the append path only when no shutdown signal is pending — from a state
with both a shutdown token and an item pending, the select may pick the
item case and the loop consumes the item. -/
theorem select_no_priority_cex :
    ¬ ∀ (app app' : Application),
        loopStep app SelectCase.item = some app' → app.stopReceiveNewItem.buf = [] := by
  intro h
  exact absurd
    (h bothPendingApp ((loopStep bothPendingApp SelectCase.item).getD bothPendingApp) (by decide))
    (by decide)

/-- C2 amended: each iteration nondeterministically runs one *ready* case
of the select. Receiving `true` on the shutdown channel closes the item
channel, marks the loop complete and stops it without consuming any item;
receiving an item appends it — and this can happen even while a shutdown
token is pending, since with both channels ready both cases are eligible
(Go chooses among them uniformly at random, not by priority). -/
theorem loopStep_cases_characterization :
    (∀ (app : Application) (rest : List Bool),
        app.phase = LoopPhase.running → app.stopReceiveNewItem.buf = true :: rest →
        loopStep app SelectCase.shutdown = some (shutdownExit app rest) ∧
        (shutdownExit app rest).phase = LoopPhase.stopped ∧
        (shutdownExit app rest).itemAdded.closed = true ∧
        (shutdownExit app rest).loopDone = true ∧
        (shutdownExit app rest).items = app.items ∧
        (shutdownExit app rest).itemAdded.buf = app.itemAdded.buf) ∧
    (∀ (app : Application) (it : Item) (rest : List Item),
        app.phase = LoopPhase.running → app.itemAdded.buf = it :: rest →
        ∃ app', loopStep app SelectCase.item = some app' ∧
          app'.items = app.items ++ [it]) ∧
    (∀ app : Application,
        app.phase = LoopPhase.running → app.stopReceiveNewItem.buf ≠ [] →
        app.itemAdded.buf ≠ [] →
        (loopStep app SelectCase.shutdown).isSome = true ∧
        (loopStep app SelectCase.item).isSome = true) := by
  refine ⟨fun app rest h1 h2 => ⟨by simp [loopStep, h1, h2], rfl, rfl, rfl, rfl, rfl⟩,
          fun app it rest h1 h2 =>
            ⟨(Application.addItem { app with itemAdded := { app.itemAdded with buf := rest } } it).1,
             by simp [loopStep, h1, h2], by simp [Application.addItem]⟩,
          fun app h1 h2 h3 => ?_⟩
  constructor
  · cases hb : app.stopReceiveNewItem.buf with
    | nil => exact absurd hb h2
    | cons stop rest => cases stop <;> simp [loopStep, h1, hb]
  · cases hb : app.itemAdded.buf with
    | nil => exact absurd hb h3
    | cons it rest => simp [loopStep, h1, hb]

/-- C2 witness: the characterization applied at concrete states — a lone
pending `true` token stops the loop, a lone pending item is appended, and
with both pending both cases are ready. -/
theorem loopStep_cases_witness :
    loopStep quitPendingApp SelectCase.shutdown = some (shutdownExit quitPendingApp []) ∧
    (∃ app', loopStep itemPendingApp SelectCase.item = some app' ∧
      app'.items = itemPendingApp.items ++ [itemB]) ∧
    (loopStep bothPendingApp SelectCase.shutdown).isSome = true ∧
    (loopStep bothPendingApp SelectCase.item).isSome = true :=
  ⟨(loopStep_cases_characterization.1 quitPendingApp [] rfl rfl).1,
   loopStep_cases_characterization.2.1 itemPendingApp itemB [] rfl rfl,
   (loopStep_cases_characterization.2.2 bothPendingApp rfl (by decide) (by decide)).1,
   (loopStep_cases_characterization.2.2 bothPendingApp rfl (by decide) (by decide)).2⟩

/-- C3: evaluating the code at the failing input. After the ingestion loop
consumes the shutdown token it has executed `close(app.itemAdded)`; a
scanner send attempted after that point *panics* (Go: send on closed
channel), crashing the process — it does not block. -/
theorem send_after_close_panics :
    loopStep quitPendingApp SelectCase.shutdown = some (shutdownExit quitPendingApp []) ∧
    (shutdownExit quitPendingApp []).itemAdded.closed = true ∧
    Chan.send (shutdownExit quitPendingApp []).itemAdded itemB = SendResult.panicked ∧
    Chan.send (shutdownExit quitPendingApp []).itemAdded itemB ≠ SendResult.blocked := by
  refine ⟨by decide, rfl, by decide, by decide⟩

/-- C4 counterexample: appending a second item while the first is selected
sets the footer from the *new* item's footer, not the selected item's
footer as claimed. -/
theorem footer_shows_new_item_cex :
    oneItemApp.items.getD oneItemApp.selectedItemIndex itemB = itemA ∧
    (Application.addItem oneItemApp itemB).1.footerText = footerFormat 1 2 itemB.footer ∧
    (Application.addItem oneItemApp itemB).1.footerText ≠ footerFormat 1 2 itemA.footer := by
  refine ⟨by decide, by decide, by decide⟩

/-- C4 amended: after appending the k-th item (1-indexed) while
`selectedItemIndex` = s, the footer text equals
`footerFormat (s+1) k newItem.footer` — the count is the new length of
`items`, but the path shown is the footer of the newly appended item, not
of the currently selected one. -/
theorem addItem_footer_new_item (app : Application) (item : Item) :
    (Application.addItem app item).1.footerText =
      footerFormat (app.selectedItemIndex + 1) (app.items.length + 1) item.footer ∧
    (Application.addItem app item).1.items.length = app.items.length + 1 := by
  constructor <;> simp [Application.addItem]

/-- When every entry of a listing stats successfully, the scan emits one
item per entry. -/
theorem scanEntries_length_all_ok (fs : FS) (path : String) (files : List DirEntry)
    (h : ∀ f ∈ files, (fs.stat (path ++ "/" ++ f.name)).isSome = true) :
    (scanEntries fs path files).length = files.length := by
  induction files with
  | nil => rfl
  | cons f rest ih =>
    obtain ⟨st, hst⟩ := Option.isSome_iff_exists.mp (h f (by simp))
    have hrest : ∀ g ∈ rest, (fs.stat (path ++ "/" ++ g.name)).isSome = true :=
      fun g hg => h g (by simp [hg])
    simp [scanEntries, List.filterMap_cons, emitItem, hst] at ih ⊢
    exact ih hrest

/-- C6: if exactly one of the listed entries fails to stat, the scan skips
only that entry and emits the other N−1 items unaffected, in order. -/
theorem scan_skips_failed_entry (fs : FS) (path : String)
    (l1 l2 : List DirEntry) (bad : DirEntry)
    (h1 : ∀ f ∈ l1, (fs.stat (path ++ "/" ++ f.name)).isSome = true)
    (h2 : ∀ f ∈ l2, (fs.stat (path ++ "/" ++ f.name)).isSome = true)
    (hbad : fs.stat (path ++ "/" ++ bad.name) = none) :
    scanEntries fs path (l1 ++ bad :: l2) =
      scanEntries fs path l1 ++ scanEntries fs path l2 ∧
    (scanEntries fs path (l1 ++ bad :: l2)).length = (l1 ++ bad :: l2).length - 1 := by
  have hsplit : scanEntries fs path (l1 ++ bad :: l2) =
      scanEntries fs path l1 ++ scanEntries fs path l2 := by
    simp [scanEntries, List.filterMap_append, List.filterMap_cons, emitItem, hbad]
  refine ⟨hsplit, ?_⟩
  rw [hsplit]
  simp [List.length_append, scanEntries_length_all_ok fs path l1 h1,
        scanEntries_length_all_ok fs path l2 h2]

/-- C6 witness: of three entries of `d`, the middle one fails to stat; the
scan emits the other two. -/
theorem scan_skips_failed_entry_witness :
    scanEntries fsSkip "d" ([entX1] ++ entX2 :: [entX3]) =
      scanEntries fsSkip "d" [entX1] ++ scanEntries fsSkip "d" [entX3] ∧
    (scanEntries fsSkip "d" ([entX1] ++ entX2 :: [entX3])).length =
      ([entX1] ++ entX2 :: [entX3]).length - 1 :=
  scan_skips_failed_entry fsSkip "d" [entX1] [entX3] entX2 (by decide) (by decide) (by decide)

/-- C7: failing to resolve the working directory (no CLI argument and
`Getwd` errors) or failing to list the target directory makes the scan
return normally without emitting any item. -/
theorem scan_failure_emits_nothing :
    (∀ (args : List String) (e : String)
        (readDir : String → Except String (List DirEntry)) (fs : FS),
        args.length = 1 → scanDirectory args (Except.error e) readDir fs = []) ∧
    (∀ (args : List String) (getwd : Except String String)
        (readDir : String → Except String (List DirEntry)) (fs : FS) (path e : String),
        resolvePath args getwd = some path → readDir path = Except.error e →
        scanDirectory args getwd readDir fs = []) := by
  constructor
  · intro args e readDir fs h
    simp [scanDirectory, resolvePath, h]
  · intro args getwd readDir fs path e hres hread
    simp [scanDirectory, hres, hread]

/-- C7 witness: a failing `Getwd` with no CLI path, and a failing directory
listing with an explicit CLI path, both emit nothing. -/
theorem scan_failure_witness :
    scanDirectory ["gofi"] (Except.error "no wd") readDirOk fsAB = [] ∧
    scanDirectory ["gofi", "d"] (Except.ok "w") readDirFail fsAB = [] :=
  ⟨scan_failure_emits_nothing.1 ["gofi"] "no wd" readDirOk fsAB rfl,
   scan_failure_emits_nothing.2 ["gofi", "d"] (Except.ok "w") readDirFail fsAB "d" "boom"
     (by decide) rfl⟩

/-- C8: every item the scanner publishes is fully populated before the
send: the title is the entry's filename (non-empty for a real directory
entry), the footer is `path/title`, and the description is the five-field
text whose classification field is `Text` exactly when the content
heuristic says so and `Bin` otherwise. -/
theorem emitItem_fully_populated (fs : FS) (path : String) (file : DirEntry)
    (fileStat : FileStat)
    (hstat : fs.stat (path ++ "/" ++ file.name) = some fileStat)
    (hname : file.name ≠ "") :
    ∃ item, emitItem fs path file = some item ∧
      item.title = file.name ∧ item.title ≠ "" ∧
      item.footer = path ++ "/" ++ file.name ∧
      item.description =
        "File size: " ++ toString fileStat.size ++
        "\nParent dir: " ++ path ++
        "\nFile mode: " ++ fileStat.mode ++
        "\nDirectory: " ++ (if fileStat.isDir then "Yes" else "No") ++
        "\nFile format: " ++
        (if fs.isTextFile (path ++ "/" ++ file.name) then "Text" else "Bin") := by
  refine ⟨{ title := file.name
            description :=
              "File size: " ++ toString fileStat.size ++
              "\nParent dir: " ++ path ++
              "\nFile mode: " ++ fileStat.mode ++
              "\nDirectory: " ++ (if fileStat.isDir then "Yes" else "No") ++
              "\nFile format: " ++
              (if fs.isTextFile (path ++ "/" ++ file.name) then "Text" else "Bin")
            footer := path ++ "/" ++ file.name }, ?_, rfl, hname, rfl, rfl⟩
  simp [emitItem, hstat]

/-- C8 witness: the end-to-end scenario of the spec — directory `d` with
the 10-byte text file `a.txt` and the subdirectory `b`. Both emitted items
are fully populated, they come out in listing order, and the descriptions
contain the claimed fragments. -/
theorem emitItem_scenario_witness :
    (∃ item, emitItem fsAB "d" entA = some item ∧
      item.title = entA.name ∧ item.title ≠ "" ∧
      item.footer = "d" ++ "/" ++ entA.name ∧
      item.description =
        "File size: " ++ toString statA.size ++
        "\nParent dir: " ++ "d" ++
        "\nFile mode: " ++ statA.mode ++
        "\nDirectory: " ++ (if statA.isDir then "Yes" else "No") ++
        "\nFile format: " ++
        (if fsAB.isTextFile ("d" ++ "/" ++ entA.name) then "Text" else "Bin")) ∧
    (∃ item, emitItem fsAB "d" entB = some item ∧
      item.title = entB.name ∧ item.title ≠ "" ∧
      item.footer = "d" ++ "/" ++ entB.name ∧
      item.description =
        "File size: " ++ toString statB.size ++
        "\nParent dir: " ++ "d" ++
        "\nFile mode: " ++ statB.mode ++
        "\nDirectory: " ++ (if statB.isDir then "Yes" else "No") ++
        "\nFile format: " ++
        (if fsAB.isTextFile ("d" ++ "/" ++ entB.name) then "Text" else "Bin")) ∧
    scanEntries fsAB "d" [entA, entB] = [itemAB0, itemAB1] ∧
    strHasSeg itemAB0.description "File size: 10" = true ∧
    strHasSeg itemAB0.description "Directory: No" = true ∧
    strHasSeg itemAB0.description "File format: Text" = true ∧
    strHasSeg itemAB1.description "Directory: Yes" = true :=
  ⟨emitItem_fully_populated fsAB "d" entA statA (by decide) (by decide),
   emitItem_fully_populated fsAB "d" entB statB (by decide) (by decide),
   by decide, by decide, by decide, by decide, by decide⟩

/-- C9: sending the shutdown token twice is tolerated without error: both
buffered sends succeed without blocking or panicking (capacity 10), the
first token received stops the loop, and the second token stays buffered
forever — the stopped loop makes no further step, yet nothing crashes or
deadlocks. -/
theorem double_shutdown_tolerated (app : Application)
    (h1 : app.phase = LoopPhase.running)
    (h2 : app.stopReceiveNewItem.closed = false)
    (h3 : app.stopReceiveNewItem.buf = [])
    (h4 : app.stopReceiveNewItem.cap = 10) :
    ∃ ch1 ch2 : Chan Bool,
      Chan.send app.stopReceiveNewItem true = SendResult.ok ch1 ∧
      Chan.send ch1 true = SendResult.ok ch2 ∧
      ∃ app3, loopStep { app with stopReceiveNewItem := ch2 } SelectCase.shutdown = some app3 ∧
        app3.phase = LoopPhase.stopped ∧
        app3.stopReceiveNewItem.buf = [true] ∧
        ∀ c, loopStep app3 c = none := by
  refine ⟨{ app.stopReceiveNewItem with buf := [true] },
          { app.stopReceiveNewItem with buf := [true, true] },
          ?_, ?_,
          shutdownExit { app with stopReceiveNewItem :=
            { app.stopReceiveNewItem with buf := [true, true] } } [true],
          ?_, rfl, rfl, fun c => rfl⟩
  · simp [Chan.send, h2, h3, h4]
  · simp [Chan.send, h2, h4]
  · simp [loopStep, h1]

/-- C9 witness: both sends and the stop at the freshly constructed
application. -/
theorem double_shutdown_witness :
    ∃ ch1 ch2 : Chan Bool,
      Chan.send newApplication.stopReceiveNewItem true = SendResult.ok ch1 ∧
      Chan.send ch1 true = SendResult.ok ch2 ∧
      ∃ app3, loopStep { newApplication with stopReceiveNewItem := ch2 }
          SelectCase.shutdown = some app3 ∧
        app3.phase = LoopPhase.stopped ∧
        app3.stopReceiveNewItem.buf = [true] ∧
        ∀ c, loopStep app3 c = none :=
  double_shutdown_tolerated newApplication rfl rfl rfl rfl

/-- C10: Ctrl+C always enqueues a shutdown token; a q press enqueues a
shutdown token and synthesizes a Ctrl+C event only when the list view has
focus; a q press without that focus is passed through unchanged and sends
nothing. (The buffer is assumed to have room for two tokens, which holds
whenever fewer than 9 of the 10 slots are used.) -/
theorem inputCapture_quit_keys (app : Application) (event : EventKey) (focus : Bool)
    (hopen : app.stopReceiveNewItem.closed = false)
    (hroom : app.stopReceiveNewItem.buf.length + 1 < app.stopReceiveNewItem.cap) :
    (event.key = KeyCode.ctrlC →
      app.stopReceiveNewItem.buf.length + 1 ≤
        ((inputCapture app focus event).1).stopReceiveNewItem.buf.length) ∧
    (event.key ≠ KeyCode.ctrlC → event.rune = Q →
      ((inputCapture app true event).1).stopReceiveNewItem.buf =
        app.stopReceiveNewItem.buf ++ [true] ∧
      (inputCapture app true event).2 = { key := KeyCode.ctrlC, rune := 0 }) ∧
    (event.key ≠ KeyCode.ctrlC → event.rune = Q →
      inputCapture app false event = (app, event)) := by
  have hlt : app.stopReceiveNewItem.buf.length < app.stopReceiveNewItem.cap := by omega
  have hsend : sendStopSignal app =
      { app with stopReceiveNewItem :=
          { app.stopReceiveNewItem with buf := app.stopReceiveNewItem.buf ++ [true] } } := by
    simp [sendStopSignal, Chan.send, hopen, hlt]
  have hsend2 : sendStopSignal { app with stopReceiveNewItem :=
        { app.stopReceiveNewItem with buf := app.stopReceiveNewItem.buf ++ [true] } } =
      { app with stopReceiveNewItem :=
          { app.stopReceiveNewItem with
            buf := app.stopReceiveNewItem.buf ++ [true, true] } } := by
    simp [sendStopSignal, Chan.send, hopen, hroom]
  refine ⟨fun hk => ?_, fun hk hq => ?_, fun hk hq => ?_⟩
  · cases focus with
    | false => simp [inputCapture, hk, hsend]
    | true =>
      by_cases hj : event.rune = J
      · simp [inputCapture, hk, hj, hsend]
      · by_cases hkk : event.rune = K
        · simp [inputCapture, hk, hj, hkk, J, K, Q, hsend]
        · by_cases hq : event.rune = Q
          · simp [inputCapture, hk, hj, hkk, hq, J, K, Q, hsend, hsend2]
          · simp [inputCapture, hk, hj, hkk, hq, hsend]
  · constructor <;> simp [inputCapture, hk, hq, J, K, Q, hsend]
  · simp [inputCapture, hk]

/-- C10 witness: at the fresh application, a q press with list-view focus
enqueues a token and returns a Ctrl+C event, a q press without focus passes
through unchanged with nothing sent, and a Ctrl+C press enqueues a
token. -/
theorem inputCapture_quit_keys_witness :
    (((inputCapture newApplication true qEvent).1).stopReceiveNewItem.buf =
        newApplication.stopReceiveNewItem.buf ++ [true] ∧
      (inputCapture newApplication true qEvent).2 = { key := KeyCode.ctrlC, rune := 0 }) ∧
    inputCapture newApplication false qEvent = (newApplication, qEvent) ∧
    newApplication.stopReceiveNewItem.buf.length + 1 ≤
      ((inputCapture newApplication false ctrlCEvent).1).stopReceiveNewItem.buf.length :=
  ⟨(inputCapture_quit_keys newApplication qEvent true rfl (by decide)).2.1 (by decide) rfl,
   (inputCapture_quit_keys newApplication qEvent false rfl (by decide)).2.2 (by decide) rfl,
   (inputCapture_quit_keys newApplication ctrlCEvent false rfl (by decide)).1 rfl⟩
